import Mathlib

/-!
Shallow embedding of the zeroclaw MCP (Model Context Protocol) client runtime
(`src/tools/mcp/{protocol,error,tool,client,registry}.rs`) and proofs about it.

Effectful Rust code is embedded as explicit state passing plus an event trace:
each async operation becomes a pure Lean function from the session state and an
environment oracle (the outcomes the outside world would produce for each I/O
step) to a result, a successor state, and the list of observable effects.
-/

set_option maxHeartbeats 1600000

/-- A serde_json::Value: JSON values, with objects as ordered field lists. -/
inductive Json where
  | null
  | bool (b : Bool)
  | num (n : Int)
  | str (s : String)
  | arr (elems : List Json)
  | obj (fields : List (String × Json))

/-- Field lookup in a JSON object, first occurrence wins (as serde does when
deserializing a struct field). -/
def lookupField (fields : List (String × Json)) (key : String) : Option Json :=
  List.lookup key fields

/-- A single quote character, used in error display strings. -/
def sgl : String := "\x27"

/- ===== protocol.rs ===== -/

/-- JsonRpcId from protocol.rs: untagged union of string and integer. -/
inductive JsonRpcId where
  | string (s : String)
  | number (n : Int)

/-- JsonRpcError from protocol.rs. -/
structure JsonRpcError where
  code : Int
  message : String
  data : Option Json

/-- The parsed form of a JsonRpcResponse from protocol.rs: jsonrpc tag and id
are carried on the wire; result and error are both optional. -/
structure JsonRpcResponse where
  result : Option Json
  error : Option JsonRpcError

/-- ToolsCapability from protocol.rs. -/
structure ToolsCapability where
  list_changed : Option Bool
deriving DecidableEq

/-- ResourcesCapability from protocol.rs. -/
structure ResourcesCapability where
  subscribe : Option Bool
  list_changed : Option Bool
deriving DecidableEq

/-- PromptsCapability from protocol.rs. -/
structure PromptsCapability where
  list_changed : Option Bool
deriving DecidableEq

/-- ServerCapabilities from protocol.rs (serde renames the fields to
tools / resources / prompts on the wire). -/
structure ServerCapabilities where
  tools_capability : Option ToolsCapability
  resources_capability : Option ResourcesCapability
  prompts_capability : Option PromptsCapability
deriving DecidableEq

/-- ToolDefinition from protocol.rs. -/
structure ToolDefinition where
  name : String
  description : String
  input_schema : Json

/-- Content from protocol.rs: internally tagged by the field type with
variant tags text / image / resource. -/
inductive Content where
  | text (text : String)
  | image (data : String) (media_type : String)
  | resource (uri : String)
deriving DecidableEq

/-- ToolResult from protocol.rs: content list plus an is_error flag that
serde defaults to false when the field is absent. -/
structure ToolResult where
  content : List Content
  is_error : Bool
deriving DecidableEq

/-- Byte length of a string under UTF-8, matching Rust String::len. -/
def utf8Len (s : String) : Nat := s.utf8ByteSize

/-- Deserialization of one Content element, following serde semantics for the
internally tagged enum in protocol.rs: the type field of the object selects the
variant, the fields of that variant are then required with exact names, and
unknown extra fields are ignored. -/
def Content.fromJson (j : Json) : Except String Content :=
  match j with
  | .obj fields =>
    match lookupField fields "type" with
    | some (.str "text") =>
      match lookupField fields "text" with
      | some (.str t) => .ok (.text t)
      | _ => .error "missing or invalid field text"
    | some (.str "image") =>
      match lookupField fields "data", lookupField fields "media_type" with
      | some (.str d), some (.str m) => .ok (.image d m)
      | _, _ => .error "missing or invalid image fields"
    | some (.str "resource") =>
      match lookupField fields "uri" with
      | some (.str u) => .ok (.resource u)
      | _ => .error "missing or invalid field uri"
    | _ => .error "unknown or missing content type tag"
  | _ => .error "content element is not an object"

/-- Deserialization of the content array of a ToolResult. -/
def contentListFromJson (j : Json) : Except String (List Content) :=
  match j with
  | .arr elems => elems.mapM Content.fromJson
  | _ => .error "content is not an array"

/-- Deserialization of a ToolResult, following serde semantics for the struct
in protocol.rs: field content is required; field is_error carries
serde(default) so an absent key yields false; keys other than these two
(serde field names, so snake_case) are ignored. -/
def ToolResult.fromJson (j : Json) : Except String ToolResult :=
  match j with
  | .obj fields =>
    match lookupField fields "content" with
    | none => .error "missing field content"
    | some cj =>
      match contentListFromJson cj with
      | .error e => .error e
      | .ok cs =>
        match lookupField fields "is_error" with
        | none => .ok { content := cs, is_error := false }
        | some (.bool b) => .ok { content := cs, is_error := b }
        | some _ => .error "invalid type for field is_error"
  | _ => .error "tool result is not an object"

/-- Deserialization of an optional bool field (serde Option bool with
skip_serializing_if; absent or null gives none). -/
def optBoolField (fields : List (String × Json)) (key : String) :
    Except String (Option Bool) :=
  match lookupField fields key with
  | none => .ok none
  | some .null => .ok none
  | some (.bool b) => .ok (some b)
  | some _ => .error "invalid type for optional bool field"

/-- Deserialization of ToolsCapability. -/
def ToolsCapability.fromJson (j : Json) : Except String ToolsCapability :=
  match j with
  | .obj fields =>
    match optBoolField fields "list_changed" with
    | .ok lc => .ok { list_changed := lc }
    | .error e => .error e
  | _ => .error "tools capability is not an object"

/-- Deserialization of ResourcesCapability. -/
def ResourcesCapability.fromJson (j : Json) : Except String ResourcesCapability :=
  match j with
  | .obj fields =>
    match optBoolField fields "subscribe", optBoolField fields "list_changed" with
    | .ok su, .ok lc => .ok { subscribe := su, list_changed := lc }
    | .error e, _ => .error e
    | _, .error e => .error e
  | _ => .error "resources capability is not an object"

/-- Deserialization of PromptsCapability. -/
def PromptsCapability.fromJson (j : Json) : Except String PromptsCapability :=
  match j with
  | .obj fields =>
    match optBoolField fields "list_changed" with
    | .ok lc => .ok { list_changed := lc }
    | .error e => .error e
  | _ => .error "prompts capability is not an object"

/-- Deserialization of an optional nested capability struct: absent or null
gives none, an object is parsed, anything else fails. -/
def optCapField {α : Type} (fields : List (String × Json)) (key : String)
    (parse : Json → Except String α) : Except String (Option α) :=
  match lookupField fields key with
  | none => .ok none
  | some .null => .ok none
  | some j =>
    match parse j with
    | .ok a => .ok (some a)
    | .error e => .error e

/-- Deserialization of ServerCapabilities (wire keys tools / resources /
prompts per the serde renames in protocol.rs). -/
def ServerCapabilities.fromJson (j : Json) : Except String ServerCapabilities :=
  match j with
  | .obj fields =>
    match optCapField fields "tools" ToolsCapability.fromJson,
          optCapField fields "resources" ResourcesCapability.fromJson,
          optCapField fields "prompts" PromptsCapability.fromJson with
    | .ok t, .ok r, .ok p =>
      .ok { tools_capability := t, resources_capability := r, prompts_capability := p }
    | .error e, _, _ => .error e
    | _, .error e, _ => .error e
    | _, _, .error e => .error e
  | _ => .error "server capabilities is not an object"

/- ===== error.rs ===== -/

/-- McpError from error.rs: the closed error taxonomy. Machine integers
carrying no arithmetic (timeout seconds) are embedded as Nat. -/
inductive McpError where
  | processSpawn (server : String) (reason : String)
  | processExit (server : String) (reason : String)
  | requestFailed (server : String) (reason : String)
  | serverError (server : String) (reason : String)
  | parseError (server : String) (reason : String)
  | timeout (server : String) (timeout_secs : Nat)
  | toolNotFound (server : String) (tool : String)
  | invalidArguments (tool : String) (reason : String)
  | connectionLost (server : String)
  | unknownTransport (transport : String)
  | initializationFailed (server : String) (reason : String)
  | httpError (server : String) (reason : String)
  | ioError (server : String) (cause : String)
  | jsonError (reason : String) (cause : String)
deriving DecidableEq

/-- The Display strings produced by the thiserror attributes in error.rs. -/
def McpError.display : McpError → String
  | .processSpawn server reason =>
    "Failed to spawn MCP server process " ++ sgl ++ server ++ sgl ++ ": " ++ reason
  | .processExit server reason =>
    "MCP server process " ++ sgl ++ server ++ sgl ++ " exited unexpectedly: " ++ reason
  | .requestFailed server reason =>
    "Failed to send request to MCP server " ++ sgl ++ server ++ sgl ++ ": " ++ reason
  | .serverError server reason =>
    "MCP server " ++ sgl ++ server ++ sgl ++ " returned error: " ++ reason
  | .parseError server reason =>
    "Failed to parse MCP response from " ++ sgl ++ server ++ sgl ++ ": " ++ reason
  | .timeout server secs =>
    "MCP server " ++ sgl ++ server ++ sgl ++ " timed out after " ++ toString secs ++ "s"
  | .toolNotFound server tool =>
    "Tool " ++ sgl ++ tool ++ sgl ++ " not found on MCP server " ++ sgl ++ server ++ sgl
  | .invalidArguments tool reason =>
    "Invalid tool arguments for " ++ sgl ++ tool ++ sgl ++ ": " ++ reason
  | .connectionLost server =>
    "Connection to MCP server " ++ sgl ++ server ++ sgl ++ " lost"
  | .unknownTransport transport =>
    "Unknown transport type " ++ sgl ++ transport ++ sgl ++ ": use " ++ sgl ++ "stdio" ++ sgl
      ++ " or " ++ sgl ++ "http" ++ sgl
  | .initializationFailed server reason =>
    "Failed to initialize MCP server " ++ sgl ++ server ++ sgl ++ ": " ++ reason
  | .httpError server reason =>
    "HTTP request to MCP server " ++ sgl ++ server ++ sgl ++ " failed: " ++ reason
  | .ioError server cause =>
    "IO error communicating with MCP server " ++ sgl ++ server ++ sgl ++ ": " ++ cause
  | .jsonError reason _cause =>
    "JSON serialization/deserialization error: " ++ reason

/- ===== tool.rs ===== -/

/-- The ToolResult struct of the host (tools/traits.rs), the triple returned by
McpTool::execute. -/
structure ZToolResult where
  success : Bool
  output : String
  error : Option String
deriving DecidableEq

/-- McpTool::format_content from tool.rs: map each content element to a line
and join with newline. -/
def McpTool.format_content (content : List Content) : String :=
  String.intercalate "\n" (content.map fun c =>
    match c with
    | Content.text t => t
    | Content.image data media_type =>
      "[Image: " ++ toString (utf8Len data) ++ " bytes, type=" ++ media_type ++ "]"
    | Content.resource uri => "[Resource: " ++ uri ++ "]")

/-- Observable behavior of the host security policy during one execute call:
the results of is_rate_limited, enforce_tool_operation (for the Act
operation on the path of this tool) and record_action. -/
structure SecurityOutcome where
  is_rate_limited : Bool
  enforce_tool_operation : Except String Unit
  record_action : Bool

/-- The effects McpTool::execute can perform, in order of occurrence. -/
inductive ExecEvent where
  | rateCheck
  | policyCheck (tool_path : String)
  | recordAction
  | callTool (name : String) (args : Json)

/-- The policy path string mcp.server.tool built in tool.rs. -/
def mcpToolPath (server_name tool_name : String) : String :=
  "mcp." ++ server_name ++ "." ++ tool_name

/-- McpTool::execute from tool.rs, embedded over the security outcome and the
outcome of client.call_tool. The Except layer mirrors the Rust return type
anyhow::Result; the event list records every policy consultation and
client call, in order. -/
def McpTool.execute (server_name tool_name : String) (sec : SecurityOutcome)
    (call_outcome : Except McpError ToolResult) (args : Json) :
    Except String ZToolResult × List ExecEvent :=
  if sec.is_rate_limited then
    (.ok { success := false, output := "",
           error := some "Rate limit exceeded: too many actions in the last hour" },
     [.rateCheck])
  else
    match sec.enforce_tool_operation with
    | .error reason =>
      (.ok { success := false, output := "", error := some reason },
       [.rateCheck, .policyCheck (mcpToolPath server_name tool_name)])
    | .ok _ =>
      if !sec.record_action then
        (.ok { success := false, output := "",
               error := some "Rate limit exceeded: action budget exhausted" },
         [.rateCheck, .policyCheck (mcpToolPath server_name tool_name), .recordAction])
      else
        let evs := [ExecEvent.rateCheck,
                    ExecEvent.policyCheck (mcpToolPath server_name tool_name),
                    ExecEvent.recordAction, ExecEvent.callTool tool_name args]
        match call_outcome with
        | .ok mcp_result =>
          (.ok { success := !mcp_result.is_error,
                 output := McpTool.format_content mcp_result.content,
                 error := if mcp_result.is_error
                          then some "MCP server returned error flag" else none },
           evs)
        | .error (McpError.serverError _ reason) =>
          (.ok { success := false, output := "", error := some reason }, evs)
        | .error e =>
          (.ok { success := false, output := "",
                 error := some ("MCP tool execution failed: " ++ e.display) },
           evs)

/- ===== client.rs, stdio transport ===== -/

/-- The modulus of the u64 request counter in client.rs: 2 to the 64. -/
def u64Size : Nat := 2 ^ 64

/-- Reinterpretation of a u64 value (a Nat below u64Size) as a signed
64-bit integer: the `as i64` cast client.rs applies to the counter when
building the wire JsonRpcId. Values at or above 2 to the 63 wrap negative. -/
def u64AsI64 (n : Nat) : Int :=
  if n < 2 ^ 63 then (n : Int) else (n : Int) - 2 ^ 64

/-- Session state of a StdioMcpClient from client.rs: whether the child
process handle, its stdin handle and its buffered stdout reader are present
(Some), the u64 request-ID counter (stored modulo u64Size, as wrapping u64
increments leave it), and the cached capabilities. -/
structure StdioState where
  childRunning : Bool
  stdinOpen : Bool
  stdoutOpen : Bool
  requestId : Nat
  capabilities : Option ServerCapabilities

/-- StdioMcpClient::new from client.rs: all handles absent, counter at 0,
no cached capabilities. -/
def StdioMcpClient.new : StdioState :=
  { childRunning := false, stdinOpen := false, stdoutOpen := false,
    requestId := 0, capabilities := none }

/-- Environment outcome of a process spawn attempt in
ensure_process_running: the spawn itself may fail, or taking the stdin or
stdout handle may fail. -/
inductive SpawnOutcome where
  | fail (reason : String)
  | noStdin
  | noStdout
  | ok

/-- What one line read from the stdout of the child produced, at the level
after serde parsing: either the line did not parse as a JsonRpcResponse, or
it parsed to a response with its optional result and error fields. -/
inductive LineContent where
  | unparsable (msg : String)
  | response (resp : JsonRpcResponse)

/-- Environment outcome of the timed read phase of send_request: the
deadline elapsed first, the read itself failed with an I/O error, or a line
arrived. -/
inductive ReadOutcome where
  | timeout
  | ioErr (msg : String)
  | got (line : LineContent)

/-- Environment oracle for one send_request: outcome of a spawn if one is
needed, of the write-and-flush phase, and of the timed read phase. -/
structure CallEnv where
  spawn : SpawnOutcome
  write : Except String Unit
  read : ReadOutcome

/-- Observable effects of the stdio client, in order: spawning the child,
assigning a fresh request id from the counter, writing one framed request
line to stdin, and awaiting one line from stdout. -/
inductive StdioEvent where
  | spawn
  | assignId (id : Nat)
  | writeLine (method : String) (id : Nat) (params : Json)
  | readLine

/-- StdioMcpClient::ensure_process_running from client.rs: a no-op when the
child handle is present; otherwise spawn, take stdin and stdout, and store
all three. On any failure the stored state is unchanged. -/
def ensure_process_running (server : String) (st : StdioState) (env : CallEnv) :
    Except McpError StdioState × List StdioEvent :=
  if st.childRunning then (.ok st, [])
  else
    match env.spawn with
    | .fail reason => (.error (.processSpawn server reason), [.spawn])
    | .noStdin => (.error (.processExit server "Failed to open stdin"), [.spawn])
    | .noStdout => (.error (.processExit server "Failed to open stdout"), [.spawn])
    | .ok =>
      (.ok { st with childRunning := true, stdinOpen := true, stdoutOpen := true },
       [.spawn])

/-- StdioMcpClient::send_request from client.rs: ensure the process is
running, increment the request counter and take the new value as id,
serialize and write the request line, then race one line read against the
timeout; parse the line as a JsonRpcResponse, turning a present error field
into ServerError and a missing result field into ParseError. Nothing on the
timeout or error paths closes the streams or marks the session. The counter
is a u64, so the increment wraps modulo u64Size; the id placed on the wire
is that counter value cast `as i64`, which u64AsI64 models. -/
def send_request (server : String) (timeout_secs : Nat) (st : StdioState)
    (env : CallEnv) (method : String) (params : Json) :
    Except McpError Json × StdioState × List StdioEvent :=
  match ensure_process_running server st env with
  | (.error e, evs) => (.error e, st, evs)
  | (.ok st1, evs) =>
    let id := (st1.requestId + 1) % u64Size
    let st2 := { st1 with requestId := id }
    let evs1 := evs ++ [StdioEvent.assignId id]
    if !st2.stdinOpen then
      (.error (.connectionLost server), st2, evs1)
    else
      match env.write with
      | .error msg => (.error (.ioError server msg), st2, evs1)
      | .ok _ =>
        let evs2 := evs1 ++ [StdioEvent.writeLine method id params]
        if !st2.stdoutOpen then
          (.error (.connectionLost server), st2, evs2 ++ [StdioEvent.readLine])
        else
          match env.read with
          | .timeout =>
            (.error (.timeout server timeout_secs), st2, evs2 ++ [StdioEvent.readLine])
          | .ioErr msg =>
            (.error (.ioError server msg), st2, evs2 ++ [StdioEvent.readLine])
          | .got (.unparsable msg) =>
            (.error (.parseError server msg), st2, evs2 ++ [StdioEvent.readLine])
          | .got (.response resp) =>
            match resp.error with
            | some err =>
              (.error (.serverError server err.message), st2, evs2 ++ [StdioEvent.readLine])
            | none =>
              match resp.result with
              | some r => (.ok r, st2, evs2 ++ [StdioEvent.readLine])
              | none =>
                (.error (.parseError server "Response missing result field"), st2,
                 evs2 ++ [StdioEvent.readLine])

/-- The serialized initialize params built in StdioMcpClient::initialize:
protocolVersion 2024-11-05, empty capabilities (both optional fields absent,
so serde skips them), and clientInfo zeroclaw with the crate version. -/
def initParamsJson (version : String) : Json :=
  Json.obj [("protocolVersion", Json.str "2024-11-05"),
            ("capabilities", Json.obj []),
            ("clientInfo", Json.obj [("name", Json.str "zeroclaw"),
                                     ("version", Json.str version)])]

/-- StdioMcpClient::initialize from client.rs: ensure the process runs, send
the initialize request through send_request, parse the result as
ServerCapabilities, then send notifications/initialized with null params
through send_request as well, ignoring its outcome, and cache the
capabilities. -/
def StdioMcpClient.initializeSession (server version : String) (timeout_secs : Nat)
    (st : StdioState) (envInit envNotify : CallEnv) :
    Except McpError ServerCapabilities × StdioState × List StdioEvent :=
  match ensure_process_running server st envInit with
  | (.error e, evs) => (.error e, st, evs)
  | (.ok st0, evs0) =>
    match send_request server timeout_secs st0 envInit "initialize"
        (initParamsJson version) with
    | (.error e, st1, evs1) => (.error e, st1, evs0 ++ evs1)
    | (.ok result, st1, evs1) =>
      match ServerCapabilities.fromJson result with
      | .error msg => (.error (.parseError server msg), st1, evs0 ++ evs1)
      | .ok caps =>
        let r := send_request server timeout_secs st1 envNotify
          "notifications/initialized" Json.null
        (.ok caps, { r.2.1 with capabilities := some caps }, evs0 ++ evs1 ++ r.2.2)

/-- One send_request invocation in a session trace: its environment oracle,
method and params. -/
structure RequestCall where
  env : CallEnv
  method : String
  params : Json

/-- A session: a sequence of send_request calls threaded through the client
state, collecting all events. -/
def runSendRequests (server : String) (timeout_secs : Nat) :
    StdioState → List RequestCall → StdioState × List StdioEvent
  | st, [] => (st, [])
  | st, c :: rest =>
    let r := send_request server timeout_secs st c.env c.method c.params
    let next := runSendRequests server timeout_secs r.2.1 rest
    (next.1, r.2.2 ++ next.2)

/-- The request ids assigned during a trace, in order. -/
def assignedIds (evs : List StdioEvent) : List Nat :=
  evs.filterMap fun e =>
    match e with
    | .assignId n => some n
    | _ => none

/-- Concrete environment for the C4 run: spawn succeeds, write succeeds,
the read deadline elapses. -/
def envTimedOut : CallEnv :=
  { spawn := .ok, write := .ok (), read := .timeout }

/-- Concrete environment for a normal exchange: the peer answers with a
response carrying an empty-object result. -/
def envAnswered : CallEnv :=
  { spawn := .ok, write := .ok (),
    read := .got (.response { result := some (Json.obj []), error := none }) }

/-- A request call whose environment always answers: used to build long
sessions in which every call assigns an id. -/
def pingCall : RequestCall :=
  { env := envAnswered, method := "ping", params := Json.obj [] }

/-- The session state left behind by a send_request that timed out on a
fresh client. -/
def stateAfterTimeout : StdioState :=
  (send_request "s" 5 StdioMcpClient.new envTimedOut "tools/call" (Json.obj [])).2.1

/- ===== registry.rs ===== -/

/-- RetryPolicy as read by registry.rs: maximum retry count and backoff in
milliseconds. -/
structure RetryPolicy where
  max_attempts : Nat
  backoff_ms : Nat

/-- Modelled from the spec: the Default implementation of RetryPolicy lives
in the config module, which is outside the mcp core sources; the spec fixes
the defaults used when retry_policy is absent to max_attempts 0 and
backoff_ms 0. -/
def RetryPolicy.default : RetryPolicy := { max_attempts := 0, backoff_ms := 0 }

/-- McpServerConfig as read by registry.rs (the struct itself lives in the
config module; these are exactly the fields the registry consumes). -/
structure McpServerConfig where
  name : String
  transport_type : String
  command : String
  args : List String
  env : List (String × String)
  work_dir : Option String
  url : String
  auth_token : Option String
  timeout_secs : Nat
  retry_policy : Option RetryPolicy

/-- McpConfig as read by the discovery pipeline. -/
structure McpConfig where
  enabled : Bool
  default_timeout_secs : Nat
  max_connections : Nat
  servers : List McpServerConfig

/-- A per-tool adapter as constructed by register_server: the tool
definition plus the server name. The shared client and the security handle
carry no data at this level of the model. -/
structure McpToolAdapter where
  definition : ToolDefinition
  server_name : String

/-- Observable behavior of one configured server during registration: the
outcome of the k-th initialize call (the capabilities value is discarded by
the retry loop, so only success matters), the outcome of list_tools, and
the outcome of secret decryption for an http auth token. -/
structure ServerBehavior where
  initOutcomes : Nat → Except McpError Unit
  list_tools : Except McpError (List ToolDefinition)
  decryptOutcome : Except String String

/-- Effects of the registration pipeline: constructing a transport client,
one initialize call (with its attempt counter value), one backoff sleep,
and one tools/list call. -/
inductive RegEvent where
  | constructClient (transport : String)
  | initCall (attempt : Nat)
  | sleepMs (ms : Nat)
  | listToolsCall

/-- The initialize retry loop inside McpRegistry::register_server: run
initialize; on an error while attempts is below max_attempts, sleep
backoff_ms, increment attempts and retry; otherwise return that error. -/
def initRetryLoop (outcomes : Nat → Except McpError Unit) (policy : RetryPolicy)
    (attempts : Nat) : Except McpError Unit × List RegEvent :=
  match outcomes attempts with
  | .ok _ => (.ok (), [.initCall attempts])
  | .error e =>
    if h : attempts < policy.max_attempts then
      ((initRetryLoop outcomes policy (attempts + 1)).1,
       .initCall attempts :: .sleepMs policy.backoff_ms ::
         (initRetryLoop outcomes policy (attempts + 1)).2)
    else (.error e, [.initCall attempts])
termination_by policy.max_attempts - attempts
decreasing_by simp_wf; omega

/-- McpRegistry::resolve_secret from registry.rs: decrypt through the
secret store, mapping a failure to InitializationFailed with server slot
secret. The token and config path only feed the store, which is a black
box here, so they do not appear. -/
def resolve_secret (outcome : Except String String) : Except McpError String :=
  match outcome with
  | .ok plain => .ok plain
  | .error e => .error (.initializationFailed "secret" e)

/-- The auth-token resolution step of the http arm of register_server:
resolve through the secret store only when a token reference is present. -/
def resolveAuthToken (auth_token : Option String)
    (outcome : Except String String) : Except McpError (Option String) :=
  match auth_token with
  | some _tok =>
    match resolve_secret outcome with
    | .ok p => .ok (some p)
    | .error e => .error e
  | none => .ok none

/-- The tail of register_server shared by both transports: call list_tools
and wrap each ToolDefinition into an adapter carrying the server name. -/
def listAndWrap (sc : McpServerConfig) (b : ServerBehavior)
    (evs : List RegEvent) :
    Except McpError (List McpToolAdapter) × List RegEvent :=
  match b.list_tools with
  | .error e => (.error e, evs ++ [RegEvent.listToolsCall])
  | .ok defs =>
    (.ok (defs.map fun d => { definition := d, server_name := sc.name }),
     evs ++ [RegEvent.listToolsCall])

/-- McpRegistry::register_server from registry.rs: resolve the retry policy
with its defaults, dispatch on transport_type (stdio constructs a stdio
client directly; http resolves the auth token through the secret store
first; anything else is UnknownTransport), run initialize under the retry
loop, then list tools and emit adapters. -/
def register_server (sc : McpServerConfig) (b : ServerBehavior) :
    Except McpError (List McpToolAdapter) × List RegEvent :=
  let retry_policy := sc.retry_policy.getD RetryPolicy.default
  if sc.transport_type = "stdio" then
    let r := initRetryLoop b.initOutcomes retry_policy 0
    let evs := RegEvent.constructClient "stdio" :: r.2
    match r.1 with
    | .error e => (.error e, evs)
    | .ok _ => listAndWrap sc b evs
  else if sc.transport_type = "http" then
    match resolveAuthToken sc.auth_token b.decryptOutcome with
    | .error e => (.error e, [])
    | .ok _tok =>
      let r := initRetryLoop b.initOutcomes retry_policy 0
      let evs := RegEvent.constructClient "http" :: r.2
      match r.1 with
      | .error e => (.error e, evs)
      | .ok _ => listAndWrap sc b evs
  else
    (.error (.unknownTransport sc.transport_type), [])

/-- McpRegistry::discover_tools from registry.rs: when disabled return the
empty list; otherwise iterate the servers in order, appending the adapters
of each successful registration and skipping each failed one with a warning
log. The function itself always returns Ok. -/
def McpRegistry.discover_tools (config : McpConfig)
    (behaviors : Nat → ServerBehavior) :
    Except String (List McpToolAdapter) × List RegEvent :=
  if !config.enabled then (.ok [], [])
  else
    let folded := config.servers.enum.foldl
      (fun acc p =>
        let r := register_server p.2 (behaviors p.1)
        match r.1 with
        | .ok tools => (acc.1 ++ tools, acc.2 ++ r.2)
        | .error _ => (acc.1, acc.2 ++ r.2))
      ([], [])
    (.ok folded.1, folded.2)

/-- The discover_tools wrapper in tools/mcp/mod.rs: its own enabled check in
front of McpRegistry::discover_tools. -/
def discover_tools (config : McpConfig) (behaviors : Nat → ServerBehavior) :
    Except String (List McpToolAdapter) × List RegEvent :=
  if !config.enabled then (.ok [], [])
  else McpRegistry.discover_tools config behaviors

/-- Number of initialize calls recorded in a registration trace. -/
def countInitCalls (evs : List RegEvent) : Nat :=
  evs.countP fun e =>
    match e with
    | .initCall _ => true
    | _ => false

/-- The tool definition used in the S2 scenario. -/
def echoDef : ToolDefinition :=
  { name := "echo", description := "e", input_schema := Json.obj [] }

/-- S2 scenario behavior: first initialize fails with a boot server error,
every later one succeeds; tools/list exposes one echo tool. -/
def s2Behavior : ServerBehavior :=
  { initOutcomes := fun k =>
      if k = 0 then .error (.serverError "s1" "boot") else .ok (),
    list_tools := .ok [echoDef],
    decryptOutcome := .ok "" }

/-- S2 scenario server config: stdio transport with retry policy
max_attempts 2, backoff_ms 10. -/
def s2Config : McpServerConfig :=
  { name := "s1", transport_type := "stdio", command := "cat", args := ["-u"],
    env := [], work_dir := none, url := "", auth_token := none,
    timeout_secs := 5,
    retry_policy := some { max_attempts := 2, backoff_ms := 10 } }

/- ===== theorems for C1, C2, C3 ===== -/

/-- C1: for every input arguments value, every security-policy outcome and
every MCP-client outcome (including every McpError variant), the tool
execute of the adapter returns Ok with a success/output/error result triple; it
never returns an Err. -/
theorem c1_execute_always_ok (server_name tool_name : String) (sec : SecurityOutcome)
    (call_outcome : Except McpError ToolResult) (args : Json) :
    ∃ r : ZToolResult,
      (McpTool.execute server_name tool_name sec call_outcome args).1 = Except.ok r := by
  unfold McpTool.execute
  by_cases h : sec.is_rate_limited
  · simp [h]
  · simp only [h, if_false, Bool.false_eq_true]
    cases sec.enforce_tool_operation with
    | error reason => simp
    | ok u =>
      by_cases hr : sec.record_action
      · simp only [hr]
        cases call_outcome with
        | ok r => simp
        | error e => cases e <;> simp
      · simp [hr]

/-- C2: whenever is_rate_limited returns true, execute returns the rate-limit
result triple and performs nothing else: no policy check, no record_action,
and no client call (the event trace is just the rate check). -/
theorem c2_rate_limited_short_circuits (server_name tool_name : String)
    (sec : SecurityOutcome) (call_outcome : Except McpError ToolResult) (args : Json)
    (h : sec.is_rate_limited = true) :
    McpTool.execute server_name tool_name sec call_outcome args =
      (Except.ok { success := false, output := "",
                   error := some "Rate limit exceeded: too many actions in the last hour" },
       [ExecEvent.rateCheck]) := by
  unfold McpTool.execute
  simp [h]

/-- C2 witness at a concrete rate-limited policy. -/
theorem c2_witness :
    McpTool.execute "srv" "echo"
        { is_rate_limited := true, enforce_tool_operation := Except.ok (), record_action := true }
        (Except.ok { content := [], is_error := false }) Json.null =
      (Except.ok { success := false, output := "",
                   error := some "Rate limit exceeded: too many actions in the last hour" },
       [ExecEvent.rateCheck]) :=
  c2_rate_limited_short_circuits "srv" "echo" _ _ Json.null rfl

/-- C3: when the policy admits the call and call_tool returns a ToolResult,
the output of execute is the newline-join of the content mapped elementwise
(text to its text, image to an Image placeholder with the byte length and
media type, resource to a Resource placeholder with the uri); success is the
negation of is_error, and when is_error is set the error field is exactly
the server-error-flag message while the output still carries the content. -/
theorem c3_normalization (server_name tool_name : String) (sec : SecurityOutcome)
    (tr : ToolResult) (args : Json)
    (h1 : sec.is_rate_limited = false)
    (h2 : sec.enforce_tool_operation = Except.ok ())
    (h3 : sec.record_action = true) :
    (McpTool.execute server_name tool_name sec (Except.ok tr) args).1 =
      Except.ok
        { success := !tr.is_error,
          output := String.intercalate "\n" (tr.content.map fun c =>
            match c with
            | Content.text t => t
            | Content.image d m =>
              "[Image: " ++ toString (utf8Len d) ++ " bytes, type=" ++ m ++ "]"
            | Content.resource uri => "[Resource: " ++ uri ++ "]"),
          error := if tr.is_error then some "MCP server returned error flag" else none } := by
  unfold McpTool.execute
  simp [h1, h2, h3, McpTool.format_content]

/-- C3 witness at the S5 scenario: an is_error result with one text element
yields success false, output no, and the server-error-flag message. -/
theorem c3_witness :
    (McpTool.execute "s1" "echo"
        { is_rate_limited := false, enforce_tool_operation := Except.ok (),
          record_action := true }
        (Except.ok { content := [Content.text "no"], is_error := true }) Json.null).1 =
      Except.ok { success := false, output := "no",
                  error := some "MCP server returned error flag" } := by
  have h := c3_normalization "s1" "echo"
    { is_rate_limited := false, enforce_tool_operation := Except.ok (),
      record_action := true }
    { content := [Content.text "no"], is_error := true } Json.null rfl rfl rfl
  simpa using h

/- ===== theorems for C4, C5, C8 ===== -/

/-- Each send_request call either assigns no id and leaves the counter
unchanged (the ensure-process phase failed), or assigns exactly the wrapped
increment of the stored counter and stores it back. -/
theorem send_request_id_step (server : String) (tsecs : Nat) (st : StdioState)
    (env : CallEnv) (m : String) (p : Json) :
    (assignedIds (send_request server tsecs st env m p).2.2 = [] ∧
       (send_request server tsecs st env m p).2.1.requestId = st.requestId) ∨
    (assignedIds (send_request server tsecs st env m p).2.2 =
        [(st.requestId + 1) % u64Size] ∧
       (send_request server tsecs st env m p).2.1.requestId =
        (st.requestId + 1) % u64Size) := by
  obtain ⟨spawn, write, read⟩ := env
  unfold send_request ensure_process_running
  by_cases h : st.childRunning <;>
    by_cases hs : st.stdinOpen <;>
      cases spawn <;>
        cases write <;>
          rcases read with _ | msg | (msg | ⟨res, err⟩)
  all_goals try cases err
  all_goals try cases res
  all_goals by_cases ho : st.stdoutOpen
  all_goals simp [h, hs, ho, assignedIds]

/-- When the spawn oracle succeeds, every send_request call assigns exactly
one id, the wrapped increment of the stored counter, and stores it back
(whatever the write and read phases then do). -/
theorem send_request_id_assign (server : String) (tsecs : Nat) (st : StdioState)
    (env : CallEnv) (m : String) (p : Json) (h : env.spawn = SpawnOutcome.ok) :
    assignedIds (send_request server tsecs st env m p).2.2 =
      [(st.requestId + 1) % u64Size] ∧
    (send_request server tsecs st env m p).2.1.requestId =
      (st.requestId + 1) % u64Size := by
  unfold send_request ensure_process_running
  by_cases hc : st.childRunning <;>
    by_cases hs : st.stdinOpen <;>
      by_cases ho : st.stdoutOpen <;>
        cases hw : env.write <;>
          rcases hr : env.read with _ | msg | (msg | ⟨res, err⟩)
  all_goals try cases err
  all_goals try cases res
  all_goals simp [h, hc, hs, ho, hw, hr, assignedIds]

/-- Two ranges with congruent starts modulo M agree after reduction mod M. -/
theorem map_mod_range' (M : Nat) :
    ∀ (k a b : Nat), a % M = b % M →
      (List.range' a k).map (· % M) = (List.range' b k).map (· % M) := by
  intro k
  induction k with
  | zero => intro a b h; simp
  | succ k ih =>
    intro a b h
    have hstep : (a + 1) % M = (b + 1) % M := by
      rw [← Nat.mod_add_mod, h, Nat.mod_add_mod]
    rw [List.range'_succ, List.range'_succ]
    simp only [List.map_cons]
    rw [h, ih (a + 1) (b + 1) hstep]

/-- Across any session run starting from any state, the ids assigned are
the successive wrapped increments of the stored counter: the next k values
of the counter, each reduced modulo u64Size, for some k. -/
theorem runSendRequests_ids (server : String) (tsecs : Nat)
    (calls : List RequestCall) : ∀ st : StdioState, ∃ k : Nat,
    assignedIds (runSendRequests server tsecs st calls).2 =
      (List.range' (st.requestId + 1) k).map (· % u64Size) := by
  induction calls with
  | nil => intro st; exact ⟨0, by simp [runSendRequests, assignedIds]⟩
  | cons c rest ih =>
    intro st
    have hstep := send_request_id_step server tsecs st c.env c.method c.params
    obtain ⟨k, hids⟩ :=
      ih (send_request server tsecs st c.env c.method c.params).2.1
    cases hstep with
    | inl h =>
      refine ⟨k, ?_⟩
      simp only [runSendRequests, assignedIds, List.filterMap_append] at *
      rw [h.1, hids, h.2]
      simp
    | inr h =>
      refine ⟨k + 1, ?_⟩
      simp only [runSendRequests, assignedIds, List.filterMap_append] at *
      rw [h.1, hids, h.2]
      rw [map_mod_range' u64Size k ((st.requestId + 1) % u64Size + 1)
            (st.requestId + 1 + 1) (Nat.mod_add_mod (st.requestId + 1) u64Size 1)]
      rw [List.range'_succ]
      simp

/-- In a session whose calls all carry a spawn-succeeding environment, every
call assigns an id, so the ids are exactly the next n wrapped counter
values. -/
theorem runSendRequests_replicate_ids (server : String) (tsecs : Nat)
    (env : CallEnv) (m : String) (p : Json) (h : env.spawn = SpawnOutcome.ok) :
    ∀ (n : Nat) (st : StdioState),
      assignedIds (runSendRequests server tsecs st
          (List.replicate n { env := env, method := m, params := p })).2 =
        (List.range' (st.requestId + 1) n).map (· % u64Size) := by
  intro n
  induction n with
  | zero => intro st; simp [runSendRequests, assignedIds]
  | succ n ih =>
    intro st
    rw [List.replicate_succ]
    have hstep := send_request_id_assign server tsecs st env m p h
    have hrest := ih (send_request server tsecs st env m p).2.1
    simp only [runSendRequests, assignedIds, List.filterMap_append] at *
    rw [hstep.1, hrest, hstep.2]
    rw [map_mod_range' u64Size n ((st.requestId + 1) % u64Size + 1)
          (st.requestId + 1 + 1) (Nat.mod_add_mod (st.requestId + 1) u64Size 1)]
    rw [List.range'_succ]
    simp

/-- C8 counterexample: the claim as stated fails on the wrapping counter.
In a session of 2 to the 63 answered requests on a fresh client, the id
assigned by the last call is the u64 value 2 to the 63, whose i64 wire cast
is negative, smaller than the previous id: the numeric wire ids are not
strictly increasing for sessions of every length. -/
theorem c8_counterexample :
    ¬ List.Pairwise (fun a b => u64AsI64 a < u64AsI64 b)
        (assignedIds (runSendRequests "s" 5 StdioMcpClient.new
          (List.replicate (2 ^ 63) pingCall)).2) := by
  intro hp
  have hids := runSendRequests_replicate_ids "s" 5 envAnswered "ping"
      (Json.obj []) rfl (2 ^ 63) StdioMcpClient.new
  simp only [pingCall] at hp
  rw [show StdioMcpClient.new.requestId + 1 = 1 from rfl] at hids
  have hmap : (List.range' 1 (2 ^ 63)).map (· % u64Size) =
      List.range' 1 (2 ^ 63) := by
    conv_rhs => rw [← List.map_id (List.range' 1 (2 ^ 63))]
    apply List.map_congr_left
    intro x hx
    rw [List.mem_range'_1] at hx
    have hb : (1 : Nat) + 2 ^ 63 ≤ u64Size := by unfold u64Size; norm_num
    exact Nat.mod_eq_of_lt (by omega)
  rw [hids, hmap] at hp
  have hsplit : List.range' 1 (2 ^ 63) =
      List.range' 1 (2 ^ 63 - 2) ++ List.range' (2 ^ 63 - 1) 2 := by
    have happ := List.range'_append_1 1 (2 ^ 63 - 2) 2
    rw [show (1 + (2 ^ 63 - 2)) = 2 ^ 63 - 1 by norm_num,
        show (2 + (2 ^ 63 - 2)) = 2 ^ 63 by norm_num] at happ
    exact happ.symm
  rw [hsplit] at hp
  have h2 := (List.pairwise_append.mp hp).2.1
  simp only [List.range'] at h2
  rw [List.pairwise_cons] at h2
  have hrel := h2.1 (2 ^ 63 - 1 + 1) (by simp)
  norm_num [u64AsI64] at hrel

/-- C8 amended: the ids assigned in any session from a fresh client are the
successive u64 counter values 1, 2, ... reduced modulo u64Size, and for any
session that assigns fewer than 2 to the 63 ids they are exactly 1..k with
strictly increasing i64 wire values. -/
theorem c8_ids_increasing_amended (server : String) (tsecs : Nat)
    (calls : List RequestCall) :
    (∃ k : Nat,
      assignedIds (runSendRequests server tsecs StdioMcpClient.new calls).2 =
        (List.range' 1 k).map (· % u64Size)) ∧
    ((assignedIds (runSendRequests server tsecs StdioMcpClient.new calls).2).length
        < 2 ^ 63 →
      assignedIds (runSendRequests server tsecs StdioMcpClient.new calls).2 =
        List.range' 1
          (assignedIds (runSendRequests server tsecs StdioMcpClient.new
            calls).2).length ∧
      List.Pairwise (fun a b => u64AsI64 a < u64AsI64 b)
        (assignedIds (runSendRequests server tsecs StdioMcpClient.new calls).2)) := by
  obtain ⟨k, hk⟩ := runSendRequests_ids server tsecs calls StdioMcpClient.new
  have hk1 : assignedIds (runSendRequests server tsecs StdioMcpClient.new calls).2 =
      (List.range' 1 k).map (· % u64Size) := by
    simpa [StdioMcpClient.new] using hk
  refine ⟨⟨k, hk1⟩, ?_⟩
  intro hlen
  rw [hk1, List.length_map, List.length_range'] at hlen
  have hmapid : (List.range' 1 k).map (· % u64Size) = List.range' 1 k := by
    conv_rhs => rw [← List.map_id (List.range' 1 k)]
    apply List.map_congr_left
    intro x hx
    rw [List.mem_range'_1] at hx
    have hb : (2 : Nat) ^ 63 < u64Size := by unfold u64Size; norm_num
    exact Nat.mod_eq_of_lt (by omega)
  have hids : assignedIds (runSendRequests server tsecs StdioMcpClient.new calls).2 =
      List.range' 1 k := by rw [hk1, hmapid]
  constructor
  · rw [hids]
    simp [List.length_range']
  · rw [hids]
    refine List.Pairwise.imp_of_mem ?_ (List.pairwise_lt_range' 1 k)
    intro a b ha hb hab
    rw [List.mem_range'_1] at ha hb
    have ha63 : a < 2 ^ 63 := by omega
    have hb63 : b < 2 ^ 63 := by omega
    unfold u64AsI64
    rw [if_pos ha63, if_pos hb63]
    exact_mod_cast hab

/-- C8 witness: a concrete three-call session on a fresh client assigns the
ids 1, 2, 3 with strictly increasing wire values. -/
theorem c8_amended_witness :
    assignedIds (runSendRequests "s" 5 StdioMcpClient.new
        [pingCall, pingCall, pingCall]).2 =
      List.range' 1
        (assignedIds (runSendRequests "s" 5 StdioMcpClient.new
          [pingCall, pingCall, pingCall]).2).length ∧
    List.Pairwise (fun a b => u64AsI64 a < u64AsI64 b)
      (assignedIds (runSendRequests "s" 5 StdioMcpClient.new
        [pingCall, pingCall, pingCall]).2) :=
  (c8_ids_increasing_amended "s" 5 [pingCall, pingCall, pingCall]).2 (by decide)

/-- C4 evidence: the code does not poison a stdio session after a timeout.
On a fresh client a first send_request whose read phase hits the deadline
returns Timeout, yet the very next send_request on the same session
proceeds: it assigns id 2, writes a request line onto the same stdin, and
consumes a line from the same stdout, succeeding. -/
theorem c4_session_reused_after_timeout :
    (send_request "s" 5 StdioMcpClient.new envTimedOut "tools/call" (Json.obj [])).1 =
      Except.error (McpError.timeout "s" 5) ∧
    stateAfterTimeout.stdinOpen = true ∧
    (send_request "s" 5 stateAfterTimeout envAnswered "tools/list" (Json.obj [])).2.2 =
      [StdioEvent.assignId 2, StdioEvent.writeLine "tools/list" 2 (Json.obj []),
       StdioEvent.readLine] ∧
    (send_request "s" 5 stateAfterTimeout envAnswered "tools/list" (Json.obj [])).1 =
      Except.ok (Json.obj []) :=
  ⟨rfl, rfl, rfl, rfl⟩

/-- C5 evidence: in the code the initialized notification goes through
send_request. On a concrete happy-path run, after the successful initialize
response the client writes notifications/initialized with null params under
the fresh request id 2 and then awaits a response line for it: the
notification consumes a request id and a read, unlike a fire-and-forget
notification. -/
theorem c5_initialized_notification_is_a_request :
    (StdioMcpClient.initializeSession "s" "0.1.0" 5 StdioMcpClient.new envAnswered
        envAnswered).2.2 =
      [StdioEvent.spawn, StdioEvent.assignId 1,
       StdioEvent.writeLine "initialize" 1 (initParamsJson "0.1.0"), StdioEvent.readLine,
       StdioEvent.assignId 2,
       StdioEvent.writeLine "notifications/initialized" 2 Json.null, StdioEvent.readLine] ∧
    (StdioMcpClient.initializeSession "s" "0.1.0" 5 StdioMcpClient.new envAnswered
        envAnswered).1 =
      Except.ok { tools_capability := none, resources_capability := none,
                  prompts_capability := none } :=
  ⟨rfl, rfl⟩

/- ===== theorems for C6, C7, C9, C10 ===== -/

/-- Counting initialize calls steps over an initCall event. -/
theorem countInitCalls_cons_init (a : Nat) (evs : List RegEvent) :
    countInitCalls (RegEvent.initCall a :: evs) = countInitCalls evs + 1 := by
  simp [countInitCalls, List.countP_cons]

/-- Counting initialize calls ignores a sleep event. -/
theorem countInitCalls_cons_sleep (ms : Nat) (evs : List RegEvent) :
    countInitCalls (RegEvent.sleepMs ms :: evs) = countInitCalls evs := by
  simp [countInitCalls, List.countP_cons]

/-- Helper: from any attempts value, the retry loop makes at most
max_attempts - attempts + 1 initialize calls. -/
theorem initRetryLoop_count_le (outcomes : Nat → Except McpError Unit)
    (policy : RetryPolicy) :
    ∀ (n a : Nat), policy.max_attempts - a ≤ n →
      countInitCalls (initRetryLoop outcomes policy a).2 ≤
        policy.max_attempts - a + 1 := by
  intro n
  induction n with
  | zero =>
    intro a ha
    rw [initRetryLoop]
    cases outcomes a with
    | ok u => simp [countInitCalls]
    | error e =>
      have hnlt : ¬ a < policy.max_attempts := by omega
      simp [hnlt, countInitCalls]
  | succ n ih =>
    intro a ha
    rw [initRetryLoop]
    cases outcomes a with
    | ok u => simp [countInitCalls]
    | error e =>
      by_cases hlt : a < policy.max_attempts
      · have hrec := ih (a + 1) (by omega)
        simp [hlt, countInitCalls_cons_init, countInitCalls_cons_sleep]
        omega
      · simp [hlt, countInitCalls]

/-- C6: the per-server retry loop sleeps backoff_ms and retries after an
error while the attempt counter is below max_attempts and otherwise returns
that error, so at most max_attempts + 1 initialize calls are ever made; and
in the S2 scenario (max_attempts 2, first initialize errors with boot, the
second succeeds) registration makes exactly two initialize calls, one
backoff sleep, and populates the adapter list. -/
theorem c6_retry_policy :
    (∀ (outcomes : Nat → Except McpError Unit) (policy : RetryPolicy),
       countInitCalls (initRetryLoop outcomes policy 0).2 ≤
         policy.max_attempts + 1) ∧
    (∀ (outcomes : Nat → Except McpError Unit) (policy : RetryPolicy)
       (a : Nat) (e : McpError),
       outcomes a = Except.error e → a < policy.max_attempts →
       initRetryLoop outcomes policy a =
         ((initRetryLoop outcomes policy (a + 1)).1,
          RegEvent.initCall a :: RegEvent.sleepMs policy.backoff_ms ::
            (initRetryLoop outcomes policy (a + 1)).2)) ∧
    (∀ (outcomes : Nat → Except McpError Unit) (policy : RetryPolicy)
       (a : Nat) (e : McpError),
       outcomes a = Except.error e → policy.max_attempts ≤ a →
       initRetryLoop outcomes policy a = (Except.error e, [RegEvent.initCall a])) ∧
    (register_server s2Config s2Behavior =
       (Except.ok [{ definition := echoDef, server_name := "s1" }],
        [RegEvent.constructClient "stdio", RegEvent.initCall 0, RegEvent.sleepMs 10,
         RegEvent.initCall 1, RegEvent.listToolsCall]) ∧
     countInitCalls (register_server s2Config s2Behavior).2 = 2) := by
  have h1 : initRetryLoop
      (fun k => if k = 0 then Except.error (McpError.serverError "s1" "boot")
                else Except.ok ())
      { max_attempts := 2, backoff_ms := 10 } 1 =
      (Except.ok (), [RegEvent.initCall 1]) := by
    rw [initRetryLoop]
    simp
  have h0 : initRetryLoop s2Behavior.initOutcomes
      { max_attempts := 2, backoff_ms := 10 } 0 =
      (Except.ok (), [RegEvent.initCall 0, RegEvent.sleepMs 10, RegEvent.initCall 1]) := by
    conv_lhs => rw [initRetryLoop]
    simp [s2Behavior, h1]
  have hreg : register_server s2Config s2Behavior =
      (Except.ok [{ definition := echoDef, server_name := "s1" }],
       [RegEvent.constructClient "stdio", RegEvent.initCall 0, RegEvent.sleepMs 10,
        RegEvent.initCall 1, RegEvent.listToolsCall]) := by
    unfold register_server
    have h0l : initRetryLoop
        (fun k => if k = 0 then Except.error (McpError.serverError "s1" "boot")
                  else Except.ok ())
        { max_attempts := 2, backoff_ms := 10 } 0 =
        (Except.ok (), [RegEvent.initCall 0, RegEvent.sleepMs 10, RegEvent.initCall 1]) := by
      simpa [s2Behavior] using h0
    simp [s2Config, s2Behavior, h0l, listAndWrap]
  refine ⟨?_, ?_, ?_, hreg, ?_⟩
  · intro outcomes policy
    have h := initRetryLoop_count_le outcomes policy policy.max_attempts 0 (by omega)
    simpa using h
  · intro outcomes policy a e he hlt
    conv_lhs => rw [initRetryLoop]
    simp [he, hlt]
  · intro outcomes policy a e he hge
    have hnlt : ¬ a < policy.max_attempts := by omega
    rw [initRetryLoop]
    simp [he, hnlt]
  · rw [hreg]
    simp [countInitCalls, List.countP_cons]

/-- C6 witness: the bound, the retry step and the stop step instantiated on
the concrete S2 behavior. -/
theorem c6_witness :
    countInitCalls (initRetryLoop s2Behavior.initOutcomes
      { max_attempts := 2, backoff_ms := 10 } 0).2 ≤ 3 ∧
    initRetryLoop s2Behavior.initOutcomes { max_attempts := 2, backoff_ms := 10 } 0 =
      ((initRetryLoop s2Behavior.initOutcomes { max_attempts := 2, backoff_ms := 10 } 1).1,
       RegEvent.initCall 0 :: RegEvent.sleepMs 10 ::
         (initRetryLoop s2Behavior.initOutcomes { max_attempts := 2, backoff_ms := 10 } 1).2) ∧
    initRetryLoop s2Behavior.initOutcomes { max_attempts := 0, backoff_ms := 10 } 0 =
      (Except.error (McpError.serverError "s1" "boot"), [RegEvent.initCall 0]) :=
  ⟨c6_retry_policy.1 s2Behavior.initOutcomes { max_attempts := 2, backoff_ms := 10 },
   c6_retry_policy.2.1 s2Behavior.initOutcomes { max_attempts := 2, backoff_ms := 10 }
     0 (McpError.serverError "s1" "boot") rfl (by decide),
   c6_retry_policy.2.2.1 s2Behavior.initOutcomes { max_attempts := 0, backoff_ms := 10 }
     0 (McpError.serverError "s1" "boot") rfl (by decide)⟩

/-- Helper: the discovery fold appends, per server in order, the adapters of
the successful registrations and the trace of every registration. -/
theorem discover_fold_eq (behaviors : Nat → ServerBehavior) :
    ∀ (l : List (Nat × McpServerConfig)) (acc : List McpToolAdapter × List RegEvent),
      l.foldl (fun acc p =>
        let r := register_server p.2 (behaviors p.1)
        match r.1 with
        | .ok tools => (acc.1 ++ tools, acc.2 ++ r.2)
        | .error _ => (acc.1, acc.2 ++ r.2)) acc =
      (acc.1 ++ (l.map fun p =>
          match (register_server p.2 (behaviors p.1)).1 with
          | .ok tools => tools
          | .error _ => []).flatten,
       acc.2 ++ (l.map fun p => (register_server p.2 (behaviors p.1)).2).flatten) := by
  intro l
  induction l with
  | nil => intro acc; simp
  | cons x xs ih =>
    intro acc
    simp only [List.foldl_cons, List.map_cons, List.flatten_cons]
    cases hx : (register_server x.2 (behaviors x.1)).1 with
    | ok tools => simp [hx, ih, List.append_assoc]
    | error e => simp [hx, ih, List.append_assoc]

/-- C7: with the feature enabled, discover_tools always returns Ok, its
adapter list being exactly the concatenation of the adapters of the servers
that registered successfully (failed servers contribute nothing); and a
transport_type other than stdio or http makes that server registration fail
with UnknownTransport, so such a server is among the skipped ones. -/
theorem c7_per_server_isolation :
    (∀ (config : McpConfig) (behaviors : Nat → ServerBehavior),
       config.enabled = true →
       McpRegistry.discover_tools config behaviors =
         (Except.ok ((config.servers.enum.map fun p =>
             match (register_server p.2 (behaviors p.1)).1 with
             | .ok tools => tools
             | .error _ => []).flatten),
          (config.servers.enum.map fun p =>
             (register_server p.2 (behaviors p.1)).2).flatten)) ∧
    (∀ (sc : McpServerConfig) (b : ServerBehavior),
       sc.transport_type ≠ "stdio" → sc.transport_type ≠ "http" →
       (register_server sc b).1 =
         Except.error (McpError.unknownTransport sc.transport_type)) := by
  constructor
  · intro config behaviors hen
    unfold McpRegistry.discover_tools
    rw [discover_fold_eq]
    simp [hen]
  · intro sc b h1 h2
    unfold register_server
    simp [h1, h2]

/-- A server config whose transport type is neither stdio nor http. -/
def c7BadConfig : McpServerConfig :=
  { name := "bad", transport_type := "websocket", command := "", args := [],
    env := [], work_dir := none, url := "", auth_token := none,
    timeout_secs := 5, retry_policy := none }

/-- A healthy stdio server config with no retry policy. -/
def c7GoodConfig : McpServerConfig :=
  { name := "good", transport_type := "stdio", command := "cat", args := [],
    env := [], work_dir := none, url := "", auth_token := none,
    timeout_secs := 5, retry_policy := none }

/-- A behavior whose initialize always succeeds and which lists one tool. -/
def goodBehavior : ServerBehavior :=
  { initOutcomes := fun _ => .ok (), list_tools := .ok [echoDef],
    decryptOutcome := .ok "" }

/-- The two-server configuration for the C7 witness. -/
def c7Config : McpConfig :=
  { enabled := true, default_timeout_secs := 30, max_connections := 5,
    servers := [c7BadConfig, c7GoodConfig] }

/-- C7 witness: with one unknown-transport server and one good stdio server,
discovery returns exactly the adapters of the good server, and the bad
server registration fails with UnknownTransport. -/
theorem c7_witness :
    McpRegistry.discover_tools c7Config (fun _ => goodBehavior) =
      (Except.ok [{ definition := echoDef, server_name := "good" }],
       [RegEvent.constructClient "stdio", RegEvent.initCall 0,
        RegEvent.listToolsCall]) ∧
    (register_server c7BadConfig goodBehavior).1 =
      Except.error (McpError.unknownTransport "websocket") := by
  have hloop : initRetryLoop (fun (_ : Nat) => (Except.ok () : Except McpError Unit))
      RetryPolicy.default 0 = (Except.ok (), [RegEvent.initCall 0]) := by
    rw [initRetryLoop]
  have hgood : register_server c7GoodConfig goodBehavior =
      (Except.ok [{ definition := echoDef, server_name := "good" }],
       [RegEvent.constructClient "stdio", RegEvent.initCall 0,
        RegEvent.listToolsCall]) := by
    unfold register_server
    simp [c7GoodConfig, goodBehavior, hloop, listAndWrap]
  have hbad : (register_server c7BadConfig goodBehavior).1 =
      Except.error (McpError.unknownTransport "websocket") := by
    have h := c7_per_server_isolation.2 c7BadConfig goodBehavior
      (by simp [c7BadConfig]) (by simp [c7BadConfig])
    simpa [c7BadConfig] using h
  refine ⟨?_, hbad⟩
  rw [c7_per_server_isolation.1 c7Config (fun _ => goodBehavior) rfl]
  have hbadfull : (register_server c7BadConfig goodBehavior).2 = [] := by
    unfold register_server
    simp [c7BadConfig]
  simp [c7Config, List.enum, hgood, hbad, hbadfull]

/-- C9: with enabled false, both the registry discover_tools and its
mod-level wrapper return the empty adapter list with an empty effect trace:
no client is constructed, no initialize or list request happens, regardless
of the configured servers. -/
theorem c9_disabled_is_noop (config : McpConfig) (behaviors : Nat → ServerBehavior)
    (h : config.enabled = false) :
    discover_tools config behaviors = (Except.ok [], []) ∧
    McpRegistry.discover_tools config behaviors = (Except.ok [], []) := by
  unfold discover_tools McpRegistry.discover_tools
  simp [h]

/-- C9 witness: a disabled config with a nonempty server list. -/
theorem c9_witness :
    discover_tools
        { enabled := false, default_timeout_secs := 30, max_connections := 5,
          servers := [s2Config] } (fun _ => s2Behavior) = (Except.ok [], []) ∧
    McpRegistry.discover_tools
        { enabled := false, default_timeout_secs := 30, max_connections := 5,
          servers := [s2Config] } (fun _ => s2Behavior) = (Except.ok [], []) :=
  c9_disabled_is_noop _ _ rfl

/-- C10: ToolResult deserialization reads the error flag only from the key
is_error; whenever that key is absent and the object deserializes, the flag
is false, regardless of any other keys (such as a camelCase isError, which
is silently ignored). -/
theorem c10_is_error_key_is_snake_case (fields : List (String × Json))
    (tr : ToolResult)
    (habs : lookupField fields "is_error" = none)
    (h : ToolResult.fromJson (Json.obj fields) = Except.ok tr) :
    tr.is_error = false := by
  cases hc : lookupField fields "content" with
  | none => simp [ToolResult.fromJson, hc] at h
  | some cj =>
    cases hl : contentListFromJson cj with
    | error e => simp [ToolResult.fromJson, hc, hl] at h
    | ok cs =>
      simp only [ToolResult.fromJson, hc, hl, habs, Except.ok.injEq] at h
      subst h
      rfl

/-- The C10 witness payload: a well-formed content list together with a
camelCase isError true key and no is_error key. -/
def c10Json : Json :=
  Json.obj [("content", Json.arr [Json.obj [("type", Json.str "text"),
                                            ("text", Json.str "ok")]]),
            ("isError", Json.bool true)]

/-- C10 witness: the payload deserializes, the camelCase flag is dropped,
and the theorem yields is_error false. -/
theorem c10_witness :
    ToolResult.fromJson c10Json =
      Except.ok { content := [Content.text "ok"], is_error := false } ∧
    ({ content := [Content.text "ok"], is_error := false } : ToolResult).is_error
      = false :=
  ⟨rfl, c10_is_error_key_is_snake_case
    [("content", Json.arr [Json.obj [("type", Json.str "text"),
                                     ("text", Json.str "ok")]]),
     ("isError", Json.bool true)]
    { content := [Content.text "ok"], is_error := false } rfl rfl⟩

/-- C1 witness: a concrete error outcome still yields an Ok triple. -/
theorem c1_witness :
    ∃ r : ZToolResult,
      (McpTool.execute "srv" "t"
        { is_rate_limited := false, enforce_tool_operation := Except.ok (),
          record_action := true }
        (Except.error (McpError.timeout "srv" 5)) Json.null).1 = Except.ok r :=
  c1_execute_always_ok "srv" "t"
    { is_rate_limited := false, enforce_tool_operation := Except.ok (),
      record_action := true }
    (Except.error (McpError.timeout "srv" 5)) Json.null
